import Mathlib

/-!
Shallow embedding of the nihilism time-loop game core
(src/game.rs, src/endings.rs, and the choice classifier in src/routes.rs).

Timestamps (`chrono::DateTime<Utc>`) and UUIDs are modelled as `Nat`: the
core logic never inspects them, it only stores fresh values supplied by the
environment, so operations that read the clock take the current time as an
explicit argument.  `u64` counters are modelled as `Nat` (they only ever
grow by 1) and `i32` fields as `Int`; the one place the source casts a
`u64` down to `i32` (`dark as i32 - light as i32` in `check_for_ending`)
is modelled with explicit two's-complement truncation.
-/

namespace Nihilism

/-- A single choice the player can make (struct `Choice` in game.rs). -/
structure Choice where
  id : String
  text : String
  consequence_hint : Option String
  deriving Repr, DecidableEq

/-- A narrative moment in the game (struct `NarrativeMoment` in game.rs). -/
structure NarrativeMoment where
  id : Nat
  text : String
  speaker : Option String
  mood : String
  choices : List Choice
  timestamp : Nat
  deriving Repr, DecidableEq

/-- A single loop iteration (struct `Loop` in game.rs). -/
structure Loop where
  number : Nat
  started_at : Nat
  ended_at : Option Nat
  choices_made : List String
  outcome : Option String
  deriving Repr, DecidableEq

/-- Memory that persists across loops (struct `PersistentMemory` in game.rs).
`character_deaths` is a `HashMap<String, u64>` in the source, modelled as an
association list; the core operations under study never touch it. -/
structure PersistentMemory where
  total_loops : Nat
  total_choices : Nat
  dark_choices : Nat
  light_choices : Nat
  key_memories : List String
  character_deaths : List (String × Nat)
  truths_discovered : List String
  nihilism_score : Int
  deriving Repr, DecidableEq

/-- `PersistentMemory::default()` in game.rs. -/
def PersistentMemory.default : PersistentMemory :=
  { total_loops := 0
    total_choices := 0
    dark_choices := 0
    light_choices := 0
    key_memories := []
    character_deaths := []
    truths_discovered := []
    nihilism_score := 0 }

/-- A player session (struct `Player` in game.rs). -/
structure Player where
  id : Nat
  name : Option String
  current_loop : Loop
  memory : PersistentMemory
  narrative_history : List NarrativeMoment
  created_at : Nat
  deriving Repr, DecidableEq

/-- `Player::new()` in game.rs; the fresh UUID and the clock reading
`Utc::now()` are passed in explicitly. -/
def Player.new (uuid : Nat) (now : Nat) : Player :=
  { id := uuid
    name := none
    current_loop :=
      { number := 1
        started_at := now
        ended_at := none
        choices_made := []
        outcome := none }
    memory := PersistentMemory.default
    narrative_history := []
    created_at := now }

/-- `GameState::create_player` in game.rs constructs `Player::new()` and
stores a clone in the registry; the player value it returns is exactly
`Player.new`. -/
def create_player (uuid : Nat) (now : Nat) : Player :=
  Player.new uuid now

/-- The `key_memories` update inside `Player::reset_loop` (game.rs lines
98-106): if the loop produced at least one narrative moment, push the last
moment's text unless it is already present or the list already has 20
entries. -/
def capture_memory (key_memories : List String) (last : Option NarrativeMoment) :
    List String :=
  match last with
  | some last_moment =>
      if last_moment.text ∈ key_memories then key_memories
      else if key_memories.length < 20 then key_memories ++ [last_moment.text]
      else key_memories
  | none => key_memories

/-- `Player::reset_loop` in game.rs: increment `total_loops`; if the loop
produced narrative moments, maybe retain the last moment's text in
`key_memories`; replace the active loop; clear the per-loop history.  Only
the `key_memories` field depends on the branching, so it is factored into
`capture_memory`. -/
def Player.reset_loop (p : Player) (now : Nat) : Player :=
  let memory1 := { p.memory with total_loops := p.memory.total_loops + 1 }
  let memory2 := { memory1 with
                     key_memories := capture_memory memory1.key_memories
                       p.narrative_history.getLast? }
  { p with
    memory := memory2
    current_loop :=
      { number := memory2.total_loops + 1
        started_at := now
        ended_at := none
        choices_made := []
        outcome := none }
    narrative_history := [] }

/-- `Player::make_choice` in game.rs: append the choice id to the active
loop, bump `total_choices`, and update the dark/light counter and the
clamped nihilism score. -/
def Player.make_choice (p : Player) (choice_id : String) (is_dark : Bool) : Player :=
  let loop1 := { p.current_loop with
                   choices_made := p.current_loop.choices_made ++ [choice_id] }
  let memory1 := { p.memory with total_choices := p.memory.total_choices + 1 }
  let memory2 :=
    if is_dark then
      { memory1 with
          dark_choices := memory1.dark_choices + 1
          nihilism_score := min (memory1.nihilism_score + 5) 100 }
    else
      { memory1 with
          light_choices := memory1.light_choices + 1
          nihilism_score := max (memory1.nihilism_score - 3) (-100) }
  { p with current_loop := loop1, memory := memory2 }

/-- The ending kinds (enum `EndingType` in endings.rs). -/
inductive EndingType where
  | VoidEmbrace
  | TinyPerfectThings
  | JustMonika
  | Transcendence
  | Acceptance
  | TheWatcher
  | TheMiddlePath
  deriving Repr, DecidableEq

/-- Two's-complement truncation of a `u64` value to `i32`, modelling
Rust's `as i32` cast in endings.rs line 93. -/
def toI32 (n : Nat) : Int :=
  let m := n % 4294967296
  if m < 2147483648 then (m : Int) else (m : Int) - 4294967296

/-- `check_for_ending` in endings.rs: the gate followed by the seven
ending rules, first match wins. -/
def check_for_ending (player : Player) : Option EndingType :=
  let memory := player.memory
  let score := memory.nihilism_score
  let total_loops := memory.total_loops
  let total_choices := memory.total_choices
  let dark := memory.dark_choices
  let light := memory.light_choices
  if total_loops < 5 ∨ total_choices < 20 then
    none
  else if dark > 15 ∧ light > 15 ∧ (toI32 dark - toI32 light).natAbs ≤ 2 then
    some EndingType.TheMiddlePath
  else if score ≥ 80 ∧ dark ≥ 30 then
    some EndingType.VoidEmbrace
  else if score ≤ -60 ∧ light ≥ 25 ∧ total_loops ≥ 10 then
    some EndingType.TinyPerfectThings
  else if total_loops ≥ 15 ∧ total_choices ≥ 50 ∧ score.natAbs ≤ 30 then
    some EndingType.JustMonika
  else if score ≤ -80 ∧ light ≥ 40 ∧ total_loops ≥ 8 then
    some EndingType.Transcendence
  else if total_loops ≥ 20 ∧ dark < 20 ∧ light < 20 then
    some EndingType.TheWatcher
  else if total_loops ≥ 25 ∧ score.natAbs ≤ 20 then
    some EndingType.Acceptance
  else
    none

/-- Rust's `str::to_lowercase()`, modelled as per-character lowercasing of
the character list (the keyword sets under study are plain ASCII). -/
def to_lowercase (s : String) : String :=
  String.mk (s.data.map Char.toLower)

/-- Substring containment on strings: Rust's `str::contains(pat)` for a
string pattern, via infix-of on the character lists. -/
def strContains (s pat : String) : Bool :=
  decide (pat.toList <:+: s.toList)

/-- The dark-choice classifier from `make_choice` in routes.rs lines
254-270: lowercase both inputs, then match the id against six keywords or
the display text against seven phrases. -/
def is_dark_choice (choice_id choice_text : String) : Bool :=
  let choice_lower := to_lowercase choice_text
  let id_lower := to_lowercase choice_id
  strContains id_lower "dark"
    || strContains id_lower "hurt"
    || strContains id_lower "ignore"
    || strContains id_lower "nihil"
    || strContains id_lower "cruel"
    || strContains id_lower "abandon"
    || strContains choice_lower "kill"
    || strContains choice_lower "abandon"
    || strContains choice_lower "nothing matters"
    || strContains choice_lower "don\x27t care"
    || strContains choice_lower "meaningless"
    || strContains choice_lower "leave them"
    || strContains choice_lower "walk away"

/-- The operations the serving layer (routes.rs) performs on a player:
recording a classified choice, resetting the loop, and appending a
generated narrative moment to the per-loop history
(`p.narrative_history.push(moment)`). -/
inductive GameOp where
  | makeChoice (choice_id : String) (is_dark : Bool)
  | resetLoop (now : Nat)
  | addMoment (m : NarrativeMoment)
  deriving Repr

/-- Apply one operation to a player. -/
def applyOp (p : Player) : GameOp → Player
  | GameOp.makeChoice choice_id is_dark => p.make_choice choice_id is_dark
  | GameOp.resetLoop now => p.reset_loop now
  | GameOp.addMoment m => { p with narrative_history := p.narrative_history ++ [m] }

/-- Apply a sequence of operations, oldest first. -/
def applyOps (p : Player) (ops : List GameOp) : Player :=
  ops.foldl applyOp p

/-- A fold over `make_choice` alone: the player obtained from `p` by a
sequence of `record_choice` calls with the given ids and classifications. -/
def applyChoices (p : Player) (cs : List (String × Bool)) : Player :=
  cs.foldl (fun q c => q.make_choice c.1 c.2) p

/-- A player whose persistent memory holds the given counter values and
score, all other fields as at creation; used to instantiate the
ending-evaluation scenarios. -/
def mkTestPlayer (loops choices dark light : Nat) (score : Int) : Player :=
  { Player.new 0 0 with
    memory := { PersistentMemory.default with
                  total_loops := loops
                  total_choices := choices
                  dark_choices := dark
                  light_choices := light
                  nihilism_score := score } }

/-- C1: the claim asserts that for `total_loops=6, total_choices=40,
dark_choices=20, light_choices=19, nihilism_score=0` no ending rule is
satisfied and `check_for_ending` returns none.  It is false: rule 1
(TheMiddlePath) is satisfied, since `20 > 15`, `19 > 15` and
`|20 - 19| = 1 ≤ 2`, so the result is not none. -/
theorem C1_scenarioD_counterexample :
    check_for_ending (mkTestPlayer 6 40 20 19 0) ≠ none := by
  decide

/-- C1 (amended): for every player whose persistent memory has
`total_loops=6, total_choices=40, dark_choices=20, light_choices=19,
nihilism_score=0`, `check_for_ending` returns TheMiddlePath (rule 1 is
satisfied: `dark > 15`, `light > 15`, `|dark - light| ≤ 2`). -/
theorem C1_scenarioD_middle_path (p : Player)
    (h1 : p.memory.total_loops = 6) (h2 : p.memory.total_choices = 40)
    (h3 : p.memory.dark_choices = 20) (h4 : p.memory.light_choices = 19)
    (_h5 : p.memory.nihilism_score = 0) :
    check_for_ending p = some EndingType.TheMiddlePath := by
  simp [check_for_ending, h1, h2, h3, h4, toI32]

/-- Witness for C1 (amended) at the concrete scenario-D player. -/
theorem C1_scenarioD_middle_path_witness :
    check_for_ending (mkTestPlayer 6 40 20 19 0) = some EndingType.TheMiddlePath :=
  C1_scenarioD_middle_path (mkTestPlayer 6 40 20 19 0) rfl rfl rfl rfl rfl

/-- C2: the claim asserts that for `total_loops=25, total_choices=70,
nihilism_score=10, dark_choices=10, light_choices=10` the result is
TheWatcher.  It is false: rule 4 (JustMonika) fires first, since
`25 ≥ 15`, `70 ≥ 50` and `|10| ≤ 30`, so TheWatcher is never reached. -/
theorem C2_scenarioC_counterexample :
    check_for_ending (mkTestPlayer 25 70 10 10 10) ≠ some EndingType.TheWatcher := by
  decide

/-- C2 (amended): for every player whose persistent memory has
`total_loops=25, total_choices=70, nihilism_score=10, dark_choices=10,
light_choices=10`, `check_for_ending` returns JustMonika and not
TheWatcher: rule 4 is evaluated before rules 6 and 7 and its predicate
(`total_loops ≥ 15 ∧ total_choices ≥ 50 ∧ |score| ≤ 30`) also holds
for this state, although the predicates of rules 6 and 7 hold as well. -/
theorem C2_scenarioC_just_monika (p : Player)
    (h1 : p.memory.total_loops = 25) (h2 : p.memory.total_choices = 70)
    (h3 : p.memory.dark_choices = 10) (h4 : p.memory.light_choices = 10)
    (h5 : p.memory.nihilism_score = 10) :
    check_for_ending p = some EndingType.JustMonika := by
  simp [check_for_ending, h1, h2, h3, h4, h5, toI32]

/-- Witness for C2 (amended) at the concrete scenario-C player. -/
theorem C2_scenarioC_just_monika_witness :
    check_for_ending (mkTestPlayer 25 70 10 10 10) = some EndingType.JustMonika :=
  C2_scenarioC_just_monika (mkTestPlayer 25 70 10 10 10) rfl rfl rfl rfl rfl

/-- C3: for every player, `check_for_ending` returns none whenever
`total_loops < 5` or `total_choices < 20`, regardless of the values of
`nihilism_score`, `dark_choices` and `light_choices`: the gate at the top
of the function returns before any ending rule is evaluated. -/
theorem C3_ending_gate (p : Player)
    (h : p.memory.total_loops < 5 ∨ p.memory.total_choices < 20) :
    check_for_ending p = none := by
  unfold check_for_ending
  exact if_pos h

/-- Witness for C3 at a freshly created player (0 loops, 0 choices). -/
theorem C3_ending_gate_witness :
    check_for_ending (mkTestPlayer 0 0 50 50 90) = none :=
  C3_ending_gate (mkTestPlayer 0 0 50 50 90) (Or.inl (by decide))

/-- One `make_choice` step keeps the nihilism score inside [-100, 100]. -/
lemma make_choice_score_bounds (p : Player) (choice_id : String) (is_dark : Bool)
    (h1 : -100 ≤ p.memory.nihilism_score) (h2 : p.memory.nihilism_score ≤ 100) :
    -100 ≤ (p.make_choice choice_id is_dark).memory.nihilism_score ∧
      (p.make_choice choice_id is_dark).memory.nihilism_score ≤ 100 := by
  cases is_dark <;> simp [Player.make_choice] <;> omega

/-- Folding `make_choice` over a choice list keeps the score in bounds. -/
lemma applyChoices_score_bounds (cs : List (String × Bool)) (p : Player)
    (h1 : -100 ≤ p.memory.nihilism_score) (h2 : p.memory.nihilism_score ≤ 100) :
    -100 ≤ (applyChoices p cs).memory.nihilism_score ∧
      (applyChoices p cs).memory.nihilism_score ≤ 100 := by
  induction cs generalizing p with
  | nil => exact ⟨h1, h2⟩
  | cons c cs ih =>
      have hstep := make_choice_score_bounds p c.1 c.2 h1 h2
      exact ih (p.make_choice c.1 c.2) hstep.1 hstep.2

/-- C4: for every player reachable from `create_player` by any sequence of
`record_choice` calls (any ids, any boolean classifications), the
nihilism score stays within [-100, 100]. -/
theorem C4_score_bounded (uuid now : Nat) (cs : List (String × Bool)) :
    -100 ≤ (applyChoices (create_player uuid now) cs).memory.nihilism_score ∧
      (applyChoices (create_player uuid now) cs).memory.nihilism_score ≤ 100 :=
  applyChoices_score_bounds cs (create_player uuid now)
    (by simp [create_player, Player.new, PersistentMemory.default])
    (by simp [create_player, Player.new, PersistentMemory.default])

/-- One operation step preserves `dark_choices + light_choices = total_choices`. -/
lemma applyOp_choice_partition (p : Player) (op : GameOp)
    (h : p.memory.dark_choices + p.memory.light_choices = p.memory.total_choices) :
    (applyOp p op).memory.dark_choices + (applyOp p op).memory.light_choices =
      (applyOp p op).memory.total_choices := by
  cases op with
  | makeChoice choice_id is_dark =>
      cases is_dark <;> simp [applyOp, Player.make_choice] <;> omega
  | resetLoop now => simpa [applyOp, Player.reset_loop] using h
  | addMoment m => simpa [applyOp] using h

/-- Folding operations preserves the choice-partition equation. -/
lemma applyOps_choice_partition (ops : List GameOp) (p : Player)
    (h : p.memory.dark_choices + p.memory.light_choices = p.memory.total_choices) :
    (applyOps p ops).memory.dark_choices + (applyOps p ops).memory.light_choices =
      (applyOps p ops).memory.total_choices := by
  induction ops generalizing p with
  | nil => exact h
  | cons op ops ih => exact ih (applyOp p op) (applyOp_choice_partition p op h)

/-- C5: for every player reachable from `create_player` by any sequence of
`record_choice`, `reset_loop` (and narrative-moment append) calls,
`dark_choices + light_choices = total_choices`: every recorded choice is
classified exactly once as dark or light, and no other operation touches
these counters. -/
theorem C5_choice_partition (uuid now : Nat) (ops : List GameOp) :
    (applyOps (create_player uuid now) ops).memory.dark_choices +
        (applyOps (create_player uuid now) ops).memory.light_choices =
      (applyOps (create_player uuid now) ops).memory.total_choices :=
  applyOps_choice_partition ops (create_player uuid now)
    (by simp [create_player, Player.new, PersistentMemory.default])

/-- C6: for every player, a single `reset_loop` leaves the per-loop
narrative history empty, makes the new active loop's number equal to the
(incremented) `total_loops + 1`, increments `total_loops` by exactly 1,
and leaves `total_choices`, `dark_choices`, `light_choices` and
`nihilism_score` unchanged. -/
theorem C6_reset_loop_effects (p : Player) (now : Nat) :
    (p.reset_loop now).narrative_history = [] ∧
      (p.reset_loop now).current_loop.number = (p.reset_loop now).memory.total_loops + 1 ∧
      (p.reset_loop now).memory.total_loops = p.memory.total_loops + 1 ∧
      (p.reset_loop now).memory.total_choices = p.memory.total_choices ∧
      (p.reset_loop now).memory.dark_choices = p.memory.dark_choices ∧
      (p.reset_loop now).memory.light_choices = p.memory.light_choices ∧
      (p.reset_loop now).memory.nihilism_score = p.memory.nihilism_score := by
  simp [Player.reset_loop]

/-- C8: `make_choice` appends the choice id at the end of the active
loop's choice sequence, increments `total_choices`, updates exactly one of
`dark_choices`/`light_choices` and the clamped nihilism score according to
the classification, and changes no other field of the player; it is a
total function, so the operation never fails. -/
theorem C8_make_choice_spec (p : Player) (choice_id : String) (is_dark : Bool) :
    (p.make_choice choice_id is_dark).current_loop.choices_made =
        p.current_loop.choices_made ++ [choice_id] ∧
      (p.make_choice choice_id is_dark).memory.total_choices =
        p.memory.total_choices + 1 ∧
      (p.make_choice choice_id is_dark).memory.dark_choices =
        (if is_dark then p.memory.dark_choices + 1 else p.memory.dark_choices) ∧
      (p.make_choice choice_id is_dark).memory.light_choices =
        (if is_dark then p.memory.light_choices else p.memory.light_choices + 1) ∧
      (p.make_choice choice_id is_dark).memory.nihilism_score =
        (if is_dark then min (p.memory.nihilism_score + 5) 100
         else max (p.memory.nihilism_score - 3) (-100)) ∧
      (p.make_choice choice_id is_dark).id = p.id ∧
      (p.make_choice choice_id is_dark).name = p.name ∧
      (p.make_choice choice_id is_dark).created_at = p.created_at ∧
      (p.make_choice choice_id is_dark).narrative_history = p.narrative_history ∧
      (p.make_choice choice_id is_dark).current_loop.number = p.current_loop.number ∧
      (p.make_choice choice_id is_dark).current_loop.started_at =
        p.current_loop.started_at ∧
      (p.make_choice choice_id is_dark).current_loop.ended_at =
        p.current_loop.ended_at ∧
      (p.make_choice choice_id is_dark).current_loop.outcome = p.current_loop.outcome ∧
      (p.make_choice choice_id is_dark).memory.total_loops = p.memory.total_loops ∧
      (p.make_choice choice_id is_dark).memory.key_memories = p.memory.key_memories ∧
      (p.make_choice choice_id is_dark).memory.character_deaths =
        p.memory.character_deaths ∧
      (p.make_choice choice_id is_dark).memory.truths_discovered =
        p.memory.truths_discovered := by
  cases is_dark <;> simp [Player.make_choice]

/-- On reset, the capture step preserves the bound of 20 entries and the
absence of duplicates in `key_memories`. -/
lemma capture_memory_invariant (l : List String) (last : Option NarrativeMoment)
    (h1 : l.length ≤ 20) (h2 : l.Nodup) :
    (capture_memory l last).length ≤ 20 ∧ (capture_memory l last).Nodup := by
  cases last with
  | none => exact ⟨h1, h2⟩
  | some m =>
      simp only [capture_memory]
      by_cases hm : m.text ∈ l
      · simpa [hm] using ⟨h1, h2⟩
      · by_cases hl : l.length < 20
        · refine ⟨?_, ?_⟩ <;> simp [hm, hl, List.nodup_append, h2]
          omega
        · simpa [hm, hl] using ⟨h1, h2⟩

/-- One operation step preserves the `key_memories` invariant. -/
lemma applyOp_key_memories (p : Player) (op : GameOp)
    (h1 : p.memory.key_memories.length ≤ 20) (h2 : p.memory.key_memories.Nodup) :
    (applyOp p op).memory.key_memories.length ≤ 20 ∧
      (applyOp p op).memory.key_memories.Nodup := by
  cases op with
  | makeChoice choice_id is_dark =>
      cases is_dark <;> simpa [applyOp, Player.make_choice] using ⟨h1, h2⟩
  | resetLoop now =>
      simpa [applyOp, Player.reset_loop] using
        capture_memory_invariant p.memory.key_memories p.narrative_history.getLast? h1 h2
  | addMoment m => simpa [applyOp] using ⟨h1, h2⟩

/-- Folding operations preserves the `key_memories` invariant. -/
lemma applyOps_key_memories (ops : List GameOp) (p : Player)
    (h1 : p.memory.key_memories.length ≤ 20) (h2 : p.memory.key_memories.Nodup) :
    (applyOps p ops).memory.key_memories.length ≤ 20 ∧
      (applyOps p ops).memory.key_memories.Nodup := by
  induction ops generalizing p with
  | nil => exact ⟨h1, h2⟩
  | cons op ops ih =>
      have hstep := applyOp_key_memories p op h1 h2
      exact ih (applyOp p op) hstep.1 hstep.2

/-- C7: for every player reachable from `create_player` by any sequence of
`reset_loop` calls interleaved with narrative-history appends (and
`record_choice` calls), `key_memories` never exceeds 20 entries and never
contains a duplicate string: on reset the last narrative moment's text is
appended only if it is not already present and the list has fewer than 20
entries, and once the cap is reached nothing more is ever appended. -/
theorem C7_key_memories_invariant (uuid now : Nat) (ops : List GameOp) :
    (applyOps (create_player uuid now) ops).memory.key_memories.length ≤ 20 ∧
      (applyOps (create_player uuid now) ops).memory.key_memories.Nodup :=
  applyOps_key_memories ops (create_player uuid now)
    (by simp [create_player, Player.new, PersistentMemory.default])
    (by simp [create_player, Player.new, PersistentMemory.default])

/-- One operation step preserves `current_loop.number = total_loops + 1`. -/
lemma applyOp_loop_number (p : Player) (op : GameOp)
    (h : p.current_loop.number = p.memory.total_loops + 1) :
    (applyOp p op).current_loop.number = (applyOp p op).memory.total_loops + 1 := by
  cases op with
  | makeChoice choice_id is_dark =>
      cases is_dark <;> simpa [applyOp, Player.make_choice] using h
  | resetLoop now => simp [applyOp, Player.reset_loop]
  | addMoment m => simpa [applyOp] using h

/-- Folding operations preserves `current_loop.number = total_loops + 1`. -/
lemma applyOps_loop_number (ops : List GameOp) (p : Player)
    (h : p.current_loop.number = p.memory.total_loops + 1) :
    (applyOps p ops).current_loop.number = (applyOps p ops).memory.total_loops + 1 := by
  induction ops generalizing p with
  | nil => exact h
  | cons op ops ih => exact ih (applyOp p op) (applyOp_loop_number p op h)

/-- C10: for every player reachable from `create_player` by any sequence of
`record_choice`, `reset_loop` (and narrative-moment append) calls, the
active loop's number equals `total_loops + 1`: it is 1 with
`total_loops = 0` at creation, and every reset re-establishes the
relation. -/
theorem C10_loop_number_invariant (uuid now : Nat) (ops : List GameOp) :
    (applyOps (create_player uuid now) ops).current_loop.number =
      (applyOps (create_player uuid now) ops).memory.total_loops + 1 :=
  applyOps_loop_number ops (create_player uuid now)
    (by simp [create_player, Player.new, PersistentMemory.default])

/-- C9: the choice classifier returns dark exactly when the lower-cased
identifier contains one of the six id keywords or the lower-cased display
text contains one of the seven text phrases; otherwise it returns light.
In particular, two empty inputs classify as light. -/
theorem C9_classifier_spec :
    (∀ choice_id choice_text : String,
        is_dark_choice choice_id choice_text = true ↔
          ((∃ kw ∈ (["dark", "hurt", "ignore", "nihil", "cruel", "abandon"] :
                List String), kw.toList <:+: (to_lowercase choice_id).toList) ∨
           (∃ ph ∈ (["kill", "abandon", "nothing matters", "don\x27t care",
                      "meaningless", "leave them", "walk away"] : List String),
              ph.toList <:+: (to_lowercase choice_text).toList))) ∧
      is_dark_choice "" "" = false := by
  constructor
  · intro choice_id choice_text
    simp only [is_dark_choice, strContains, Bool.or_eq_true, decide_eq_true_eq,
      List.mem_cons, List.mem_singleton, exists_eq_or_imp, exists_eq_left,
      List.not_mem_nil, or_false, false_or, exists_false]
    tauto
  · decide

end Nihilism
